import Mathlib

/-!
Shallow embedding of the sso repository's authentication core and gRPC
transport layer.

Source files embedded:
- internal/services/auth (Auth.Login, Auth.RegisterNewUser, Auth.IsAdmin and
  the domain sentinels ErrInvalidCredentials, ErrInvalidAppID, ErrUserExists);
- internal/grpc/auth/server.go (request validation structs, serverAPI.Login,
  serverAPI.Register, serverAPI.IsAdmin, formatValidationErrors).

Go errors are values created by errors.New (distinct by identity), wrapped by
fmt.Errorf with the percent-w verb, and matched by errors.Is, which walks the
wrap chain comparing identity at each step.  The collaborators behind the
UserSaver / UserProvider / AppProvider interfaces, bcrypt, and jwt.NewToken
are injected as function-valued parameters, Go style: each returns a value
paired with an optional error.  Each core operation additionally returns the
list of collaborator calls it performed, in order, so that ordering
("the token issuer runs only after verification") is provable.
-/

/-- Go error values.  Each errors.New sentinel of the repository is one
constructor; wrap models fmt.Errorf with operation context and the percent-w
verb; other covers any further collaborator error.  The constructor
errUserNotFound is the user-not-found sentinel of the storage package; the
transport (server.go) also compares against an auth.ErrUserNotFound whose
declaration is not among the provided sources, see auth.ErrUserNotFound
below. -/
inductive GoErr where
  | errUserNotFound
  | errAppNotFound
  | errUserExistsStorage
  | errInvalidCredentials
  | errInvalidAppID
  | errUserExists
  | errMismatchedHashAndPassword
  | other (msg : String)
  | wrap (op : String) (cause : GoErr)
deriving DecidableEq

/-- errors.Is: succeeds when the target is reached along the unwrap chain,
comparing whole values (sentinel identity) at each step. -/
def errorsIs : GoErr → GoErr → Bool
  | GoErr.wrap op cause, target =>
      decide (GoErr.wrap op cause = target) || errorsIs cause target
  | e, target => decide (e = target)

/-- An error that can originate in the storage layer: built from the storage
sentinels or arbitrary other errors, possibly wrapped.  The storage package
cannot reference the sentinels of the services/auth package (that import
would be cyclic in Go), so no store-returned error ever has an auth-package
sentinel in its chain. -/
def GoErr.storeOriginated : GoErr → Bool
  | GoErr.errUserNotFound => true
  | GoErr.errAppNotFound => true
  | GoErr.errUserExistsStorage => true
  | GoErr.other _ => true
  | GoErr.wrap _ cause => cause.storeOriginated
  | _ => false

/-- Storage sentinel: user not found (package storage). -/
def storage.ErrUserNotFound : GoErr := GoErr.errUserNotFound

/-- Storage sentinel: app not found (package storage). -/
def storage.ErrAppNotFound : GoErr := GoErr.errAppNotFound

/-- Storage sentinel: user already exists (package storage). -/
def storage.ErrUserExists : GoErr := GoErr.errUserExistsStorage

/-- Domain sentinel ErrInvalidCredentials of package services/auth. -/
def auth.ErrInvalidCredentials : GoErr := GoErr.errInvalidCredentials

/-- Domain sentinel ErrInvalidAppID of package services/auth. -/
def auth.ErrInvalidAppID : GoErr := GoErr.errInvalidAppID

/-- Domain sentinel ErrUserExists of package services/auth. -/
def auth.ErrUserExists : GoErr := GoErr.errUserExists

/-- Modelled from the spec: server.go compares IsAdmin errors against
auth.ErrUserNotFound, whose declaration is not among the provided source
files.  Spec section 8 requires that IsAdmin on an unknown user ID surface a
not-found error, and the core forwards the store user-not-found sentinel
unmapped on that path, so the sentinel is modelled as matching the storage
user-not-found value. -/
def auth.ErrUserNotFound : GoErr := GoErr.errUserNotFound

/-- Modelled from the spec: the User record of internal/domain/models
(not among the provided sources): numeric ID, email, password hash. -/
structure User where
  id : Int
  email : String
  passHash : List Nat
deriving DecidableEq

/-- Modelled from the spec: the App record of internal/domain/models
(not among the provided sources): numeric ID, name, signing secret. -/
structure App where
  id : Int
  name : String
  secret : String
deriving DecidableEq

/-- One collaborator call performed by a core operation. -/
inductive Event where
  | userLookup (email : String)
  | passwordVerify
  | appLookup (appID : Int)
  | tokenIssue
  | passwordHash
  | userSave (email : String)
  | adminQuery (userID : Int)
deriving DecidableEq

/-- The collaborators injected into the Auth service, Go style: each call
returns a result paired with an optional error. -/
structure AuthDeps where
  userProviderUser : String → User × Option GoErr
  userProviderIsAdmin : Int → Bool × Option GoErr
  userSaverSaveUser : String → List Nat → Int × Option GoErr
  appProviderApp : Int → App × Option GoErr
  bcryptCompareHashAndPassword : List Nat → String → Option GoErr
  bcryptGenerateFromPassword : String → List Nat × Option GoErr
  jwtNewToken : User → App → Nat → String × Option GoErr
  tokenTTL : Nat

/-- Operation name constant of Auth.Login. -/
def loginOp : String := "services.auth.Login"

/-- Operation name constant of Auth.RegisterNewUser. -/
def registerOp : String := "services.auth.RegisterNewUser"

/-- Operation name constant of Auth.IsAdmin. -/
def isAdminOp : String := "services.auth.IsAdmin"

/-- Auth.Login: look the user up by email (not-found masked as
ErrInvalidCredentials, other store errors wrapped raw), verify the password
with bcrypt (mismatch masked as ErrInvalidCredentials), look the app up
(errors wrapped raw), issue the token (errors wrapped raw).  Returns the
token, the error, and the ordered collaborator-call trace. -/
def Auth.Login (d : AuthDeps) (email password : String) (appID : Int) :
    String × Option GoErr × List Event :=
  let r1 := d.userProviderUser email
  match r1.2 with
  | some err =>
      if errorsIs err storage.ErrUserNotFound then
        ("", some (GoErr.wrap loginOp auth.ErrInvalidCredentials),
          [Event.userLookup email])
      else
        ("", some (GoErr.wrap loginOp err), [Event.userLookup email])
  | none =>
      match d.bcryptCompareHashAndPassword r1.1.passHash password with
      | some _ =>
          ("", some (GoErr.wrap loginOp auth.ErrInvalidCredentials),
            [Event.userLookup email, Event.passwordVerify])
      | none =>
          let r2 := d.appProviderApp appID
          match r2.2 with
          | some err =>
              ("", some (GoErr.wrap loginOp err),
                [Event.userLookup email, Event.passwordVerify,
                  Event.appLookup appID])
          | none =>
              let r3 := d.jwtNewToken r1.1 r2.1 d.tokenTTL
              match r3.2 with
              | some err =>
                  ("", some (GoErr.wrap loginOp err),
                    [Event.userLookup email, Event.passwordVerify,
                      Event.appLookup appID, Event.tokenIssue])
              | none =>
                  (r3.1, none,
                    [Event.userLookup email, Event.passwordVerify,
                      Event.appLookup appID, Event.tokenIssue])

/-- Auth.RegisterNewUser: hash the password, save the user (already-exists
masked as ErrUserExists, other store errors wrapped raw); on success return
the store-assigned ID. -/
def Auth.RegisterNewUser (d : AuthDeps) (email password : String) :
    Int × Option GoErr × List Event :=
  let r1 := d.bcryptGenerateFromPassword password
  match r1.2 with
  | some err => (0, some (GoErr.wrap registerOp err), [Event.passwordHash])
  | none =>
      let r2 := d.userSaverSaveUser email r1.1
      match r2.2 with
      | some err =>
          if errorsIs err storage.ErrUserExists then
            (0, some (GoErr.wrap registerOp auth.ErrUserExists),
              [Event.passwordHash, Event.userSave email])
          else
            (0, some (GoErr.wrap registerOp err),
              [Event.passwordHash, Event.userSave email])
      | none => (r2.1, none, [Event.passwordHash, Event.userSave email])

/-- Auth.IsAdmin: query the admin flag; a store error matching the APP
not-found sentinel is mapped to ErrInvalidAppID, every other store error is
wrapped raw with the operation name. -/
def Auth.IsAdmin (d : AuthDeps) (userID : Int) :
    Bool × Option GoErr × List Event :=
  let r := d.userProviderIsAdmin userID
  match r.2 with
  | some err =>
      if errorsIs err storage.ErrAppNotFound then
        (false, some (GoErr.wrap isAdminOp auth.ErrInvalidAppID),
          [Event.adminQuery userID])
      else
        (false, some (GoErr.wrap isAdminOp err), [Event.adminQuery userID])
  | none => (r.1, none, [Event.adminQuery userID])

/-- Split a character list at every occurrence of the separator, keeping
empty segments, like strings.Split. -/
def splitOnChar (c : Char) : List Char → List (List Char)
  | [] => [[]]
  | x :: xs =>
      if x = c then [] :: splitOnChar c xs
      else
        match splitOnChar c xs with
        | [] => [[x]]
        | y :: ys => (x :: y) :: ys

/-- Modelled from the spec: the email rule of the third-party validator
(required,email tags), whose implementation is outside this repository.
Spec 4.1: non-empty, contains an at sign (character 64), valid domain shape
(at least two dot-separated non-empty labels, the dot being character
46). -/
def emailWellFormed (s : String) : Bool :=
  match splitOnChar (Char.ofNat 64) s.toList with
  | [lpart, dpart] =>
      let labels := splitOnChar (Char.ofNat 46) dpart
      decide (lpart ≠ []) && decide (2 ≤ labels.length) &&
        labels.all (fun l => decide (l ≠ []))
  | _ => false

/-- LoginRequestValidation: Email required,email; Password required,min=6;
AppId required,gt=0.  The validator reports, per field in declaration order,
the first failing tag as a field-name and tag pair. -/
def validateLogin (email password : String) (appId : Int) :
    List (String × String) :=
  (if email = "" then [("Email", "required")]
   else if emailWellFormed email then [] else [("Email", "email")]) ++
  (if password = "" then [("Password", "required")]
   else if password.length < 6 then [("Password", "min")] else []) ++
  (if appId = 0 then [("AppId", "required")]
   else if appId ≤ 0 then [("AppId", "gt")] else [])

/-- RegisterRequestValidation: Email required,email; Password
required,min=6,max=32. -/
def validateRegister (email password : String) : List (String × String) :=
  (if email = "" then [("Email", "required")]
   else if emailWellFormed email then [] else [("Email", "email")]) ++
  (if password = "" then [("Password", "required")]
   else if password.length < 6 then [("Password", "min")]
   else if 32 < password.length then [("Password", "max")] else [])

/-- IsAdminRequestValidation: UserId required,gt=0. -/
def validateIsAdmin (userId : Int) : List (String × String) :=
  if userId = 0 then [("UserId", "required")]
  else if userId ≤ 0 then [("UserId", "gt")] else []

/-- formatValidationErrors: one line per violation naming the field and the
failed tag (the Go code renders the same data through fmt.Sprintf). -/
def formatValidationErrors (errs : List (String × String)) : List String :=
  errs.map (fun v => "Field " ++ v.1 ++ " failed validation: " ++ v.2)

/-- gRPC status codes used by server.go. -/
inductive Code where
  | invalidArgument
  | alreadyExists
  | notFound
  | internal
deriving DecidableEq

/-- The redacted message for unexpected failures (server.go constant). -/
def internalServerError : String := "internal server error"

/-- The error branch of serverAPI.Login: ErrInvalidCredentials anywhere in
the chain maps to InvalidArgument with a non-specific message, everything
else to Internal. -/
def serverLoginMapCoreError (err : GoErr) : Code × String :=
  if errorsIs err auth.ErrInvalidCredentials then
    (Code.invalidArgument, "invalid email or password")
  else (Code.internal, internalServerError)

/-- The error branch of serverAPI.Register: ErrUserExists anywhere in the
chain maps to AlreadyExists, everything else to Internal. -/
def serverRegisterMapCoreError (err : GoErr) : Code × String :=
  if errorsIs err auth.ErrUserExists then
    (Code.alreadyExists, "user already exists")
  else (Code.internal, internalServerError)

/-- The error branch of serverAPI.IsAdmin: auth.ErrUserNotFound anywhere in
the chain maps to NotFound, everything else to Internal. -/
def serverIsAdminMapCoreError (err : GoErr) : Code × String :=
  if errorsIs err auth.ErrUserNotFound then
    (Code.notFound, "user not found")
  else (Code.internal, internalServerError)

/-- serverAPI.Login: validate the request shape, then run the core and map
its error.  Alongside the reply it returns the collaborator-call trace of
the core (empty when the core was never invoked). -/
def serverAPI.Login (d : AuthDeps) (email password : String) (appId : Int) :
    Except (Code × String) String × List Event :=
  let verrs := validateLogin email password appId
  if verrs ≠ [] then
    (Except.error (Code.invalidArgument,
      "validation error: " ++
        String.intercalate ", " (formatValidationErrors verrs)), [])
  else
    let r := Auth.Login d email password appId
    match r.2.1 with
    | some err => (Except.error (serverLoginMapCoreError err), r.2.2)
    | none => (Except.ok r.1, r.2.2)

/-- serverAPI.Register: validate the request shape, then run the core and
map its error. -/
def serverAPI.Register (d : AuthDeps) (email password : String) :
    Except (Code × String) Int × List Event :=
  let verrs := validateRegister email password
  if verrs ≠ [] then
    (Except.error (Code.invalidArgument,
      "validation error: " ++
        String.intercalate ", " (formatValidationErrors verrs)), [])
  else
    let r := Auth.RegisterNewUser d email password
    match r.2.1 with
    | some err => (Except.error (serverRegisterMapCoreError err), r.2.2)
    | none => (Except.ok r.1, r.2.2)

/-- serverAPI.IsAdmin: validate the request shape, then run the core and map
its error. -/
def serverAPI.IsAdmin (d : AuthDeps) (userId : Int) :
    Except (Code × String) Bool × List Event :=
  let verrs := validateIsAdmin userId
  if verrs ≠ [] then
    (Except.error (Code.invalidArgument,
      "validation error: " ++
        String.intercalate ", " (formatValidationErrors verrs)), [])
  else
    let r := Auth.IsAdmin d userId
    match r.2.1 with
    | some err => (Except.error (serverIsAdminMapCoreError err), r.2.2)
    | none => (Except.ok r.1, r.2.2)

/-- A User value for concrete instantiations. -/
def okUser : User := ⟨1, "a@b.co", [1, 2]⟩

/-- An App value for concrete instantiations. -/
def okApp : App := ⟨1, "app", "app-secret"⟩

/-- Collaborators on which every call succeeds. -/
def depsHappy : AuthDeps where
  userProviderUser := fun _ => (okUser, none)
  userProviderIsAdmin := fun _ => (true, none)
  userSaverSaveUser := fun _ _ => (7, none)
  appProviderApp := fun _ => (okApp, none)
  bcryptCompareHashAndPassword := fun _ _ => none
  bcryptGenerateFromPassword := fun _ => ([1], none)
  jwtNewToken := fun _ _ _ => ("signed-token", none)
  tokenTTL := 3600

/-- Collaborators where the user lookup reports the not-found sentinel. -/
def depsUserMissing : AuthDeps :=
  { depsHappy with
    userProviderUser := fun _ => (okUser, some storage.ErrUserNotFound) }

/-- Collaborators where bcrypt reports a hash mismatch. -/
def depsWrongPassword : AuthDeps :=
  { depsHappy with
    bcryptCompareHashAndPassword :=
      fun _ _ => some GoErr.errMismatchedHashAndPassword }

/-- Collaborators where the admin query reports the APP not-found
sentinel. -/
def depsAppNotFoundOnIsAdmin : AuthDeps :=
  { depsHappy with
    userProviderIsAdmin := fun _ => (false, some storage.ErrAppNotFound) }

/-- Collaborators where the admin query reports the user not-found
sentinel. -/
def depsUserNotFoundOnIsAdmin : AuthDeps :=
  { depsHappy with
    userProviderIsAdmin := fun _ => (false, some storage.ErrUserNotFound) }

/-- Collaborators where saving reports the already-exists sentinel. -/
def depsSaveExists : AuthDeps :=
  { depsHappy with
    userSaverSaveUser := fun _ _ => (0, some storage.ErrUserExists) }

/-- Collaborators where saving reports an unrelated failure. -/
def depsSaveOther : AuthDeps :=
  { depsHappy with
    userSaverSaveUser := fun _ _ => (0, some (GoErr.other "disk full")) }

theorem string_length_empty : ("" : String).length = 0 := rfl

theorem storeOriginated_no_auth_sentinels (e : GoErr)
    (h : e.storeOriginated = true) :
    errorsIs e auth.ErrUserExists = false ∧
    errorsIs e auth.ErrInvalidCredentials = false ∧
    errorsIs e auth.ErrInvalidAppID = false := by
  induction e <;>
    simp_all [GoErr.storeOriginated, errorsIs, auth.ErrUserExists,
      auth.ErrInvalidCredentials, auth.ErrInvalidAppID]

/-- C1: on every Login execution the token issuer runs only after the user
lookup and the bcrypt verification both succeeded, and whenever lookup or
verification fails, Login returns an error and the issuer is never
reached. -/
theorem login_issues_token_only_after_verification
    (d : AuthDeps) (email password : String) (appID : Int) :
    (Event.tokenIssue ∈ (Auth.Login d email password appID).2.2 →
      (d.userProviderUser email).2 = none ∧
      d.bcryptCompareHashAndPassword (d.userProviderUser email).1.passHash
        password = none) ∧
    ((d.userProviderUser email).2 ≠ none ∨
        d.bcryptCompareHashAndPassword (d.userProviderUser email).1.passHash
          password ≠ none →
      (Auth.Login d email password appID).2.1.isSome = true ∧
      Event.tokenIssue ∉ (Auth.Login d email password appID).2.2) := by
  rcases hu : d.userProviderUser email with ⟨user, e1⟩
  cases e1 with
  | some err =>
      by_cases hnf : errorsIs err storage.ErrUserNotFound <;>
        simp [Auth.Login, hu, hnf]
  | none =>
      cases hb : d.bcryptCompareHashAndPassword user.passHash password with
      | some berr => simp [Auth.Login, hu, hb]
      | none =>
          rcases ha : d.appProviderApp appID with ⟨app, e2⟩
          cases e2 with
          | some aerr => simp [Auth.Login, hu, hb, ha]
          | none =>
              rcases ht : d.jwtNewToken user app d.tokenTTL with ⟨tok, e3⟩
              cases e3 with
              | some terr => simp [Auth.Login, hu, hb, ha, ht]
              | none => simp [Auth.Login, hu, hb, ha, ht]

theorem login_issues_token_only_after_verification_witness :
    (depsHappy.userProviderUser "a@b.co").2 = none ∧
    depsHappy.bcryptCompareHashAndPassword
      (depsHappy.userProviderUser "a@b.co").1.passHash "secret1" = none :=
  (login_issues_token_only_after_verification depsHappy "a@b.co" "secret1"
    1).1 (by decide)

/-- C2: an unknown email and a wrong password produce the very same Login
error value, of kind ErrInvalidCredentials, and the transport maps it to the
invalid-argument reply with the non-specific message, so the two causes are
indistinguishable to the caller. -/
theorem login_failure_causes_indistinguishable
    (d : AuthDeps) (email password : String) (appID : Int) :
    (∀ u e, d.userProviderUser email = (u, some e) →
      errorsIs e storage.ErrUserNotFound = true →
      (Auth.Login d email password appID).2.1 =
        some (GoErr.wrap loginOp auth.ErrInvalidCredentials)) ∧
    (∀ u, d.userProviderUser email = (u, none) →
      (d.bcryptCompareHashAndPassword u.passHash password).isSome = true →
      (Auth.Login d email password appID).2.1 =
        some (GoErr.wrap loginOp auth.ErrInvalidCredentials)) ∧
    errorsIs (GoErr.wrap loginOp auth.ErrInvalidCredentials)
      auth.ErrInvalidCredentials = true ∧
    serverLoginMapCoreError (GoErr.wrap loginOp auth.ErrInvalidCredentials) =
      (Code.invalidArgument, "invalid email or password") := by
  refine ⟨?_, ?_, by decide, by decide⟩
  · intro u e hu he
    simp [Auth.Login, hu, he]
  · intro u hu hb
    cases hob : d.bcryptCompareHashAndPassword u.passHash password with
    | none => simp [hob] at hb
    | some be => simp [Auth.Login, hu, hob]

theorem login_failure_causes_indistinguishable_witness :
    (Auth.Login depsUserMissing "a@b.co" "secret1" 1).2.1 =
      some (GoErr.wrap loginOp auth.ErrInvalidCredentials) :=
  (login_failure_causes_indistinguishable depsUserMissing "a@b.co" "secret1"
    1).1 okUser storage.ErrUserNotFound (by decide) (by decide)

/-- C3: when the admin query fails, the core maps the error to
ErrInvalidAppID exactly when it matches the APP not-found sentinel, and
wraps every other store error raw with the operation name; in particular the
user-not-found sentinel is propagated unmapped. -/
theorem isAdmin_store_error_mapping
    (d : AuthDeps) (userID : Int) (e : GoErr)
    (h : (d.userProviderIsAdmin userID).2 = some e) :
    (errorsIs e storage.ErrAppNotFound = true →
      (Auth.IsAdmin d userID).2.1 =
        some (GoErr.wrap isAdminOp auth.ErrInvalidAppID)) ∧
    (errorsIs e storage.ErrAppNotFound = false →
      (Auth.IsAdmin d userID).2.1 = some (GoErr.wrap isAdminOp e)) ∧
    (e = storage.ErrUserNotFound →
      (Auth.IsAdmin d userID).2.1 =
        some (GoErr.wrap isAdminOp storage.ErrUserNotFound)) := by
  refine ⟨?_, ?_, ?_⟩ <;> intro he <;>
    simp_all [Auth.IsAdmin, errorsIs, storage.ErrUserNotFound,
      storage.ErrAppNotFound]

theorem isAdmin_store_error_mapping_witness :
    (Auth.IsAdmin depsAppNotFoundOnIsAdmin 1).2.1 =
      some (GoErr.wrap isAdminOp auth.ErrInvalidAppID) :=
  (isAdmin_store_error_mapping depsAppNotFoundOnIsAdmin 1
    storage.ErrAppNotFound (by decide)).1 (by decide)

/-- C4 counterexample: when the admin query reports the app-not-found
sentinel, the core error is of kind ErrInvalidAppID, yet the transport
replies Internal with the generic message, not NotFound with
"user not found" as the claim states. -/
theorem isAdmin_invalidAppID_not_notFound_cex :
    (Auth.IsAdmin depsAppNotFoundOnIsAdmin 1).2.1 =
      some (GoErr.wrap isAdminOp auth.ErrInvalidAppID) ∧
    (serverAPI.IsAdmin depsAppNotFoundOnIsAdmin 1).1 =
      Except.error (Code.internal, internalServerError) ∧
    (Code.internal, internalServerError) ≠
      (Code.notFound, "user not found") := by
  refine ⟨by decide, by rfl, by decide⟩

/-- C4 amended: the IsAdmin transport mapper replies NotFound with
"user not found" exactly when the core error matches the user-not-found
sentinel through its wrap chain; every other error, an ErrInvalidAppID-kind
one included, is replied as Internal with the generic message. -/
theorem isAdmin_transport_maps_only_userNotFound :
    (∀ err, errorsIs err auth.ErrUserNotFound = true →
      serverIsAdminMapCoreError err = (Code.notFound, "user not found")) ∧
    (∀ err, errorsIs err auth.ErrUserNotFound = false →
      serverIsAdminMapCoreError err = (Code.internal, internalServerError)) ∧
    serverIsAdminMapCoreError (GoErr.wrap isAdminOp storage.ErrUserNotFound) =
      (Code.notFound, "user not found") ∧
    serverIsAdminMapCoreError (GoErr.wrap isAdminOp auth.ErrInvalidAppID) =
      (Code.internal, internalServerError) := by
  refine ⟨?_, ?_, by decide, by decide⟩ <;> intro err he <;>
    simp [serverIsAdminMapCoreError, he]

theorem isAdmin_transport_maps_only_userNotFound_witness :
    serverIsAdminMapCoreError (GoErr.wrap "op" auth.ErrUserNotFound) =
      (Code.notFound, "user not found") :=
  isAdmin_transport_maps_only_userNotFound.1
    (GoErr.wrap "op" auth.ErrUserNotFound) (by decide)

/-- C8: each transport error mapper gives a wrapped error exactly the reply
it gives the cause: the match walks the wrap chain by kind and never reads
the operation text prepended by the core. -/
theorem transport_mapping_wrap_invariant (op : String) (e : GoErr) :
    serverLoginMapCoreError (GoErr.wrap op e) = serverLoginMapCoreError e ∧
    serverRegisterMapCoreError (GoErr.wrap op e) =
      serverRegisterMapCoreError e ∧
    serverIsAdminMapCoreError (GoErr.wrap op e) =
      serverIsAdminMapCoreError e := by
  refine ⟨?_, ?_, ?_⟩ <;>
    simp [serverLoginMapCoreError, serverRegisterMapCoreError,
      serverIsAdminMapCoreError, errorsIs, auth.ErrInvalidCredentials,
      auth.ErrUserExists, auth.ErrUserNotFound]

/-- C9: the app store is queried only on Login executions where the user
lookup and the password verification both succeeded; when the email is
unknown or the password mismatches, Login answers ErrInvalidCredentials with
no app-store call in its trace. -/
theorem login_app_store_only_after_auth
    (d : AuthDeps) (email password : String) (appID : Int) :
    (∀ a, Event.appLookup a ∈ (Auth.Login d email password appID).2.2 →
      (d.userProviderUser email).2 = none ∧
      d.bcryptCompareHashAndPassword (d.userProviderUser email).1.passHash
        password = none) ∧
    (∀ e, (d.userProviderUser email).2 = some e →
      errorsIs e storage.ErrUserNotFound = true →
      (Auth.Login d email password appID).2.1 =
        some (GoErr.wrap loginOp auth.ErrInvalidCredentials) ∧
      ∀ a, Event.appLookup a ∉ (Auth.Login d email password appID).2.2) ∧
    ((d.userProviderUser email).2 = none →
      (d.bcryptCompareHashAndPassword (d.userProviderUser email).1.passHash
        password).isSome = true →
      (Auth.Login d email password appID).2.1 =
        some (GoErr.wrap loginOp auth.ErrInvalidCredentials) ∧
      ∀ a, Event.appLookup a ∉ (Auth.Login d email password appID).2.2) := by
  rcases hu : d.userProviderUser email with ⟨user, e1⟩
  cases e1 with
  | some err =>
      by_cases hnf : errorsIs err storage.ErrUserNotFound <;>
        simp_all [Auth.Login]
  | none =>
      cases hb : d.bcryptCompareHashAndPassword user.passHash password with
      | some berr => simp_all [Auth.Login]
      | none =>
          rcases ha : d.appProviderApp appID with ⟨app, e2⟩
          cases e2 with
          | some aerr => simp_all [Auth.Login]
          | none =>
              rcases ht : d.jwtNewToken user app d.tokenTTL with ⟨tok, e3⟩
              cases e3 with
              | some terr => simp_all [Auth.Login]
              | none => simp_all [Auth.Login]

theorem login_app_store_only_after_auth_witness :
    (Auth.Login depsWrongPassword "a@b.co" "wrong-pass" 1).2.1 =
      some (GoErr.wrap loginOp auth.ErrInvalidCredentials) ∧
    ∀ a, Event.appLookup a ∉
      (Auth.Login depsWrongPassword "a@b.co" "wrong-pass" 1).2.2 :=
  (login_app_store_only_after_auth depsWrongPassword "a@b.co" "wrong-pass"
    1).2.2 (by decide) (by decide)

/-- C10: whenever a core operation returns an error, it returns the zero
value of its result with it: Login the empty token, RegisterNewUser the
user ID 0, IsAdmin false. -/
theorem core_zero_results_on_error
    (d : AuthDeps) (email password : String) (appID userID : Int) :
    ((Auth.Login d email password appID).2.1.isSome = true →
      (Auth.Login d email password appID).1 = "") ∧
    ((Auth.RegisterNewUser d email password).2.1.isSome = true →
      (Auth.RegisterNewUser d email password).1 = 0) ∧
    ((Auth.IsAdmin d userID).2.1.isSome = true →
      (Auth.IsAdmin d userID).1 = false) := by
  refine ⟨?_, ?_, ?_⟩
  · rcases hu : d.userProviderUser email with ⟨user, e1⟩
    cases e1 with
    | some err =>
        by_cases hnf : errorsIs err storage.ErrUserNotFound <;>
          simp_all [Auth.Login]
    | none =>
        cases hb : d.bcryptCompareHashAndPassword user.passHash password with
        | some berr => simp_all [Auth.Login]
        | none =>
            rcases ha : d.appProviderApp appID with ⟨app, e2⟩
            cases e2 with
            | some aerr => simp_all [Auth.Login]
            | none =>
                rcases ht : d.jwtNewToken user app d.tokenTTL with ⟨tok, e3⟩
                cases e3 with
                | some terr => simp_all [Auth.Login]
                | none => simp_all [Auth.Login]
  · rcases hh : d.bcryptGenerateFromPassword password with ⟨hash, e1⟩
    cases e1 with
    | some err => simp_all [Auth.RegisterNewUser]
    | none =>
        rcases hs : d.userSaverSaveUser email hash with ⟨uid, e2⟩
        cases e2 with
        | some serr =>
            by_cases hex : errorsIs serr storage.ErrUserExists <;>
              simp_all [Auth.RegisterNewUser]
        | none => simp_all [Auth.RegisterNewUser]
  · rcases hq : d.userProviderIsAdmin userID with ⟨flag, e1⟩
    cases e1 with
    | some err =>
        by_cases hnf : errorsIs err storage.ErrAppNotFound <;>
          simp_all [Auth.IsAdmin]
    | none => simp_all [Auth.IsAdmin]

theorem core_zero_results_on_error_witness :
    (Auth.Login depsUserMissing "a@b.co" "secret1" 1).1 = "" ∧
    (Auth.RegisterNewUser depsSaveOther "a@b.co" "secret1").1 = 0 ∧
    (Auth.IsAdmin depsAppNotFoundOnIsAdmin 1).1 = false :=
  ⟨(core_zero_results_on_error depsUserMissing "a@b.co" "secret1" 1 1).1
      (by decide),
    (core_zero_results_on_error depsSaveOther "a@b.co" "secret1" 1 1).2.1
      (by decide),
    (core_zero_results_on_error depsAppNotFoundOnIsAdmin "a@b.co" "secret1" 1
      1).2.2 (by decide)⟩

/-- C5: the validator accepts Login exactly for a non-empty well-formed
email, a non-empty password of length at least 6 and a strictly positive
app identifier; Register exactly for such an email and a password length in
the interval from 6 to 32; IsAdmin exactly for a strictly positive user
identifier; each violation it reports is a field-name and rule pair. -/
theorem validator_acceptance_rules
    (email password : String) (appId userId : Int) :
    (validateLogin email password appId = [] ↔
      (email ≠ "" ∧ emailWellFormed email = true ∧ password ≠ "" ∧
        6 ≤ password.length ∧ 0 < appId)) ∧
    (validateRegister email password = [] ↔
      (email ≠ "" ∧ emailWellFormed email = true ∧
        6 ≤ password.length ∧ password.length ≤ 32)) ∧
    (validateIsAdmin userId = [] ↔ 0 < userId) ∧
    (∀ v ∈ validateLogin email password appId,
      v ∈ [("Email", "required"), ("Email", "email"),
        ("Password", "required"), ("Password", "min"),
        ("AppId", "required"), ("AppId", "gt")]) ∧
    (∀ v ∈ validateRegister email password,
      v ∈ [("Email", "required"), ("Email", "email"),
        ("Password", "required"), ("Password", "min"),
        ("Password", "max")]) ∧
    (∀ v ∈ validateIsAdmin userId,
      v ∈ [("UserId", "required"), ("UserId", "gt")]) := by
  refine ⟨?_, ?_, ?_, ?_, ?_, ?_⟩
  · by_cases h1 : email = "" <;>
      by_cases h2 : emailWellFormed email = true <;>
      by_cases h3 : password = "" <;>
      by_cases h4 : password.length < 6 <;>
      by_cases h5 : appId = 0 <;> by_cases h6 : appId ≤ 0 <;>
      simp_all [validateLogin, string_length_empty]
  · by_cases h1 : email = "" <;>
      by_cases h2 : emailWellFormed email = true <;>
      by_cases h3 : password = "" <;>
      by_cases h4 : password.length < 6 <;>
      by_cases h7 : 32 < password.length <;>
      simp_all [validateRegister, string_length_empty] <;>
      (repeat' split) <;> (try simp_all) <;> (try omega)
  · by_cases h5 : userId = 0 <;> by_cases h6 : userId ≤ 0 <;>
      simp_all [validateIsAdmin]
  · intro v hv
    simp only [validateLogin, List.mem_append] at hv
    rcases hv with (hv | hv) | hv <;> (repeat' split at hv) <;> simp_all
  · intro v hv
    simp only [validateRegister, List.mem_append] at hv
    rcases hv with hv | hv <;> (repeat' split at hv) <;> simp_all
  · intro v hv
    simp only [validateIsAdmin] at hv
    (repeat' split at hv) <;> simp_all

theorem validator_acceptance_rules_witness :
    validateLogin "a@b.co" "secret1" 1 = [] ∧
    ("Email", "email") ∈ [("Email", "required"), ("Email", "email"),
      ("Password", "required"), ("Password", "min"),
      ("AppId", "required"), ("AppId", "gt")] :=
  ⟨(validator_acceptance_rules "a@b.co" "secret1" 1 5).1.mpr (by decide),
    (validator_acceptance_rules "not-an-email" "secret1" 1 5).2.2.2.1
      ("Email", "email") (by decide)⟩

/-- C6: in RegisterNewUser a save failure matching the already-exists
sentinel yields the ErrUserExists kind, which the transport replies as
AlreadyExists with "user already exists"; any other store failure is wrapped
raw and the transport replies Internal; on success the store-assigned ID is
returned unchanged. -/
theorem register_error_mapping
    (d : AuthDeps) (email password : String)
    (hhash : (d.bcryptGenerateFromPassword password).2 = none) :
    (∀ e, (d.userSaverSaveUser email
        (d.bcryptGenerateFromPassword password).1).2 = some e →
      errorsIs e storage.ErrUserExists = true →
      (Auth.RegisterNewUser d email password).2.1 =
        some (GoErr.wrap registerOp auth.ErrUserExists) ∧
      serverRegisterMapCoreError (GoErr.wrap registerOp auth.ErrUserExists) =
        (Code.alreadyExists, "user already exists")) ∧
    (∀ e, (d.userSaverSaveUser email
        (d.bcryptGenerateFromPassword password).1).2 = some e →
      errorsIs e storage.ErrUserExists = false →
      e.storeOriginated = true →
      (Auth.RegisterNewUser d email password).2.1 =
        some (GoErr.wrap registerOp e) ∧
      serverRegisterMapCoreError (GoErr.wrap registerOp e) =
        (Code.internal, internalServerError)) ∧
    ((d.userSaverSaveUser email
        (d.bcryptGenerateFromPassword password).1).2 = none →
      (Auth.RegisterNewUser d email password).1 =
        (d.userSaverSaveUser email
          (d.bcryptGenerateFromPassword password).1).1 ∧
      (Auth.RegisterNewUser d email password).2.1 = none) := by
  refine ⟨?_, ?_, ?_⟩
  · intro e hs he
    refine ⟨?_, by decide⟩
    simp [Auth.RegisterNewUser, hhash, hs, he]
  · intro e hs he hso
    have hne : errorsIs e GoErr.errUserExists = false := by
      simpa [auth.ErrUserExists] using
        (storeOriginated_no_auth_sentinels e hso).1
    refine ⟨?_, ?_⟩
    · simp [Auth.RegisterNewUser, hhash, hs, he]
    · simp [serverRegisterMapCoreError, errorsIs, auth.ErrUserExists, hne]
  · intro hs
    refine ⟨?_, ?_⟩ <;> simp [Auth.RegisterNewUser, hhash, hs]

theorem register_error_mapping_witness :
    (Auth.RegisterNewUser depsSaveExists "a@b.co" "secret1").2.1 =
      some (GoErr.wrap registerOp auth.ErrUserExists) ∧
    serverRegisterMapCoreError (GoErr.wrap registerOp auth.ErrUserExists) =
      (Code.alreadyExists, "user already exists") :=
  (register_error_mapping depsSaveExists "a@b.co" "secret1" (by decide)).1
    storage.ErrUserExists (by decide) (by decide)

/-- C7: a request failing validation is answered InvalidArgument by the
transport handler with an empty collaborator trace: the core, and with it
every store, hasher and issuer, is never invoked. -/
theorem validation_failure_precedes_core
    (d : AuthDeps) (email password : String) (appId userId : Int) :
    (validateLogin email password appId ≠ [] →
      (serverAPI.Login d email password appId).1 =
        Except.error (Code.invalidArgument,
          "validation error: " ++ String.intercalate ", "
            (formatValidationErrors (validateLogin email password appId))) ∧
      (serverAPI.Login d email password appId).2 = []) ∧
    (validateRegister email password ≠ [] →
      (serverAPI.Register d email password).1 =
        Except.error (Code.invalidArgument,
          "validation error: " ++ String.intercalate ", "
            (formatValidationErrors (validateRegister email password))) ∧
      (serverAPI.Register d email password).2 = []) ∧
    (validateIsAdmin userId ≠ [] →
      (serverAPI.IsAdmin d userId).1 =
        Except.error (Code.invalidArgument,
          "validation error: " ++ String.intercalate ", "
            (formatValidationErrors (validateIsAdmin userId))) ∧
      (serverAPI.IsAdmin d userId).2 = []) := by
  refine ⟨?_, ?_, ?_⟩ <;> intro h <;> refine ⟨?_, ?_⟩ <;>
    simp [serverAPI.Login, serverAPI.Register, serverAPI.IsAdmin, h]

theorem validation_failure_precedes_core_witness :
    (serverAPI.Login depsHappy "not-an-email" "ab" 0).1 =
      Except.error (Code.invalidArgument,
        "validation error: " ++ String.intercalate ", "
          (formatValidationErrors (validateLogin "not-an-email" "ab" 0))) ∧
    (serverAPI.Login depsHappy "not-an-email" "ab" 0).2 = [] :=
  (validation_failure_precedes_core depsHappy "not-an-email" "ab" 0 0).1
    (by decide)
